import Mathlib

/-!
Verification development for the voice-driven appointment-booking repository.

The file shallowly embeds the decision logic of the Playwright form filler
(`src/formFiller.ts`), the OpenAI intent pipeline (`openaiService.ts`) and the
audio recorder state machine (`audioRecorder.ts`), and proves the frozen
claims about them.  Browser, network and process effects are modelled by
explicit page/environment structures and fault oracles; each definition is a
direct transcription of the corresponding TypeScript.
-/

namespace FormApp

/-! ## String helpers (JS `includes`, `trim`, `toLowerCase`, `replace`) -/

/-- Does the character list `hay` start with `need`? -/
def startsWithChars : List Char → List Char → Bool
  | _, [] => true
  | [], _ :: _ => false
  | h :: hs, n :: ns => h == n && startsWithChars hs ns

/-- Substring occurrence on character lists (JS `String.prototype.includes`). -/
def hasSubChars (hay need : List Char) : Bool :=
  match hay with
  | [] => need.isEmpty
  | _ :: t => startsWithChars hay need || hasSubChars t need

/-- JS `hay.includes(need)` — case-sensitive substring test. -/
def containsStr (hay need : String) : Bool :=
  hasSubChars hay.data need.data

/-- Lower-case a string character-wise (JS `toLowerCase` on ASCII data). -/
def lowerStr (s : String) : String :=
  String.mk (s.data.map Char.toLower)

/-- Case-insensitive substring test (Playwright `:has-text` / `hasText`
matching, and CSS `[attr*=v i]` selectors). -/
def containsCI (hay need : String) : Bool :=
  containsStr (lowerStr hay) (lowerStr need)

/-- JS `String.prototype.trim`. -/
def trimStr (s : String) : String :=
  String.mk (((s.data.dropWhile Char.isWhitespace).reverse.dropWhile
    Char.isWhitespace).reverse)

/-- One maximal whitespace run becomes a single underscore
(JS `replace(/\s+/g, '_')`).  The flag records whether the previous
character was part of a whitespace run. -/
def collapseWsAux : Bool → List Char → List Char
  | _, [] => []
  | prevWs, c :: rest =>
    if c.isWhitespace then
      if prevWs then collapseWsAux true rest
      else '_' :: collapseWsAux true rest
    else c :: collapseWsAux false rest

/-- Label text normalisation used by `getFormFields` when inferring a field
name from an associated label:
`label.textContent.trim().replace(/[:\*]/g,'').toLowerCase().replace(/\s+/g,'_')`. -/
def normalizeLabel (t : String) : String :=
  String.mk (collapseWsAux false
    (((trimStr t).data.filter (fun c => !(c == ':' || c == '*'))).map Char.toLower))

/-- Test for the `/\d+:\d+/` regular expression used in option sniffing:
some digit, a colon, and a digit occur consecutively. -/
def hasDigitColonDigit : List Char → Bool
  | a :: b :: c :: t =>
    (a.isDigit && b == ':' && c.isDigit) || hasDigitColonDigit (b :: c :: t)
  | _ => false

/-! ## The page model

A page is a list of controls in document order.  `Elem` carries exactly the
signals the form filler inspects: tag, attributes, associated label text,
option display texts, visible text content, ARIA role, whether the element is
the last child of its parent, and visibility. -/

structure Elem where
  tag : String
  typeAttr : String := ""
  nameAttr : String := ""
  idAttr : String := ""
  placeholder : String := ""
  ariaLabel : String := ""
  dataName : String := ""
  dataField : String := ""
  /-- text of a `label[for=<id>]` element pointing at this control, if any -/
  labelForText : Option String := none
  /-- text of an ancestor `<label>` element, if any -/
  parentLabelText : Option String := none
  /-- option display texts, for `select` controls -/
  options : List String := []
  /-- `textContent`, for buttons -/
  text : String := ""
  role : String := ""
  lastChild : Bool := false
  visible : Bool := true
  deriving Repr, DecidableEq

/-! ## Field-name inference (`getFormFields`, formFiller.ts lines 466-512) -/

/-- Concatenation of the non-empty option display texts of a select, joined
with spaces: `options.map(o => o.text || '').filter(t => t.trim()).join(' ')`. -/
def selectSniffText (e : Elem) : String :=
  String.intercalate " " (e.options.filter (fun t => trimStr t != ""))

/-- The "looks like time options" test from the option-content sniff:
the joined option text contains `AM`, or `PM`, or matches `/\d+:\d+/`. -/
def timeSignal (e : Elem) : Bool :=
  containsStr (selectSniffText e) "AM" || containsStr (selectSniffText e) "PM"
    || hasDigitColonDigit (selectSniffText e).data

/-- The "looks like service options" test (the two `else if` branches in the
source both yield `service_type`, so their disjunction is taken here). -/
def serviceSignal (e : Elem) : Bool :=
  containsStr (selectSniffText e) "Checkup"
    || containsStr (selectSniffText e) "Cleaning"
    || containsStr (selectSniffText e) "Consultation"
    || containsStr (selectSniffText e) "Extraction"
    || containsStr (selectSniffText e) "Root Canal"
    || containsStr (selectSniffText e) "Whitening"

/-- Option-content sniffing step: only for `select` controls; yields
`appointment_time`, `service_type`, or the empty string. -/
def sniffSelect (e : Elem) : String :=
  if e.tag = "select" then
    if timeSignal e then "appointment_time"
    else if serviceSignal e then "service_type"
    else ""
  else ""

/-- The associated-label lookup: `label[for=id]` is only queried when the
control has a non-empty id; otherwise an ancestor label is used. -/
def labelLookup (e : Elem) : Option String :=
  match (if e.idAttr ≠ "" then e.labelForText else none) with
  | some t => some t
  | none => e.parentLabelText

/-- The final positional fallback: `if (!name) name = 'field_' + index`. -/
def positionalFallback (candidate : String) (index : Nat) : String :=
  if candidate ≠ "" then candidate else "field_" ++ toString index

/-- Field-name inference for one discovered control, at 0-based document
index `index` — a direct transcription of the fallback chain in
`getFormFields`: name/id attribute, `aria-label`, normalised label text,
`data-name`/`data-field`, select option sniffing, positional `field_<index>`. -/
def inferName (e : Elem) (index : Nat) : String :=
  let n0 := if e.nameAttr ≠ "" then e.nameAttr else e.idAttr
  let n1 := if n0 ≠ "" then n0 else e.ariaLabel
  let n2 := if n1 ≠ "" then n1 else
    match labelLookup e with
    | some t => normalizeLabel t
    | none => ""
  let n3 := if n2 ≠ "" then n2 else
    (if e.dataName ≠ "" then e.dataName else e.dataField)
  let n4 := if n3 ≠ "" then n3 else sniffSelect e
  positionalFallback n4 index

/-! ## Calendar model for the default appointment date

`fillAppointmentForm` computes a default date with
`d = new Date(); d.setDate(d.getDate() + 7); d.toISOString().split('T')[0]`.
A JS `Date` is modelled by its civil calendar date (the time-of-day is
discarded by the `split('T')[0]`). -/

structure CivilDate where
  year : Nat
  month : Nat
  day : Nat
  deriving Repr, DecidableEq

/-- Gregorian leap-year rule (as used by JS `Date`). -/
def isLeap (y : Nat) : Bool :=
  (y % 4 == 0 && y % 100 != 0) || y % 400 == 0

/-- Number of days in a month of a given year. -/
def daysInMonth (y m : Nat) : Nat :=
  if m = 2 then (if isLeap y then 29 else 28)
  else if m = 4 ∨ m = 6 ∨ m = 9 ∨ m = 11 then 30
  else 31

/-- A date is a real calendar date. -/
def validCivil (c : CivilDate) : Prop :=
  1 ≤ c.year ∧ 1 ≤ c.month ∧ c.month ≤ 12 ∧ 1 ≤ c.day ∧
    c.day ≤ daysInMonth c.year c.month

instance (c : CivilDate) : Decidable (validCivil c) := by
  unfold validCivil; infer_instance

/-- Cumulative day count of the months before month `m` in a common year. -/
def monthTable : Nat → Nat
  | 2 => 31 | 3 => 59 | 4 => 90 | 5 => 120 | 6 => 151 | 7 => 181
  | 8 => 212 | 9 => 243 | 10 => 273 | 11 => 304 | 12 => 334
  | _ => 0

/-- Days of year `y` that precede month `m`. -/
def monthsBefore (y m : Nat) : Nat :=
  monthTable m + (if 3 ≤ m ∧ isLeap y = true then 1 else 0)

/-- Linear day count of a civil date in the proleptic Gregorian calendar
(day 1 = 0001-01-01); the measure used to state what "exactly 7 days later"
means. -/
def daysFromCivil (c : CivilDate) : Nat :=
  365 * (c.year - 1) + (c.year - 1) / 4 - (c.year - 1) / 100
    + (c.year - 1) / 400 + monthsBefore c.year c.month + c.day

/-- `date.setDate(date.getDate() + 7)`: JS normalises an out-of-range
day-of-month into the following month (and a December overflow into January
of the next year).  Since only 7 days are added, at most one month boundary
is crossed. -/
def jsAddDays7 (c : CivilDate) : CivilDate :=
  if c.day + 7 ≤ daysInMonth c.year c.month then
    ⟨c.year, c.month, c.day + 7⟩
  else if c.month = 12 then ⟨c.year + 1, 1, c.day + 7 - 31⟩
  else ⟨c.year, c.month + 1, c.day + 7 - daysInMonth c.year c.month⟩

/-- The decimal digit character for `n` (`n` must already be reduced mod 10). -/
def digitChar (n : Nat) : Char := Char.ofNat (48 + n)

/-- Four-digit zero-padded decimal rendering (the year part of
`toISOString`). -/
def pad4 (n : Nat) : List Char :=
  [digitChar (n / 1000 % 10), digitChar (n / 100 % 10),
   digitChar (n / 10 % 10), digitChar (n % 10)]

/-- Two-digit zero-padded decimal rendering. -/
def pad2 (n : Nat) : List Char :=
  [digitChar (n / 10 % 10), digitChar (n % 10)]

/-- `toISOString().split('T')[0]` — the `YYYY-MM-DD` rendering of a date. -/
def isoDateString (c : CivilDate) : String :=
  String.mk (pad4 c.year ++ '-' :: (pad2 c.month ++ '-' :: pad2 c.day))

/-- Spec-side shape check: ten characters, digits everywhere except dashes
at positions 4 and 7 (the `YYYY-MM-DD` ISO date form named by the spec). -/
def isIsoShape (s : String) : Bool :=
  match s.data with
  | [a, b, c, d, e, f, g, h, i, j] =>
    a.isDigit && b.isDigit && c.isDigit && d.isDigit && e == '-'
      && f.isDigit && g.isDigit && h == '-' && i.isDigit && j.isDigit
  | _ => false

/-! ## The appointment data record and fault oracle -/

/-- The caller-supplied record (`AppointmentData` in types.ts).  The empty
string models an absent value — JS tests the fields for truthiness. -/
structure AppointmentData where
  name : String := ""
  email : String := ""
  phone : String := ""
  appointmentDate : String := ""
  appointmentTime : String := ""
  serviceType : String := ""
  comments : String := ""
  deriving Repr, DecidableEq

/-- Environment-determined failures of the browser interactions: whether a
`fill`, `selectOption` or `click` on the control at a given document index
throws (timeouts, detached elements), and whether navigation/form loading
succeed. -/
structure Oracle where
  navOk : Bool := true
  fillFails : Nat → Bool := fun _ => false
  selectFails : Nat → Bool := fun _ => false
  clickFails : Nat → Bool := fun _ => false

/-- The all-success oracle. -/
def noFail : Oracle := {}

/-- Observable browser actions performed during a fill, in order. -/
inductive Ev where
  /-- `fill` wrote `value` into the control at index `idx` -/
  | wrote (idx : Nat) (value : String)
  /-- `selectOption({index: optIdx})` on the select at index `idx` -/
  | selected (idx : Nat) (optIdx : Nat)
  /-- `selectOption({label: label})` on the select at index `idx` -/
  | selectedLabel (idx : Nat) (label : String)
  /-- the body of submission strategy `k` was entered -/
  | strat (k : Nat)
  /-- strategy `strategy` clicked the control at index `idx` -/
  | clicked (strategy idx : Nat)
  /-- strategy `strategy` attempted a click at index `idx` and it threw -/
  | clickFailed (strategy idx : Nat)
  deriving Repr, DecidableEq

/-- `locator(sel).nth(k)` resolved together with its document index:
the `k`-th element (0-based) of the page satisfying `p`. -/
def findNthAux (p : Elem → Bool) : List Elem → Nat → Nat → Option (Nat × Elem)
  | [], _, _ => none
  | e :: rest, i, k =>
    if p e then
      if k = 0 then some (i, e) else findNthAux p rest (i + 1) (k - 1)
    else findNthAux p rest (i + 1) k

/-- `findNth p page k` = the `k`-th match of `p` on the page (`k = 0` is
Playwright's `.first()`). -/
def findNth (p : Elem → Bool) (page : List Elem) (k : Nat) : Option (Nat × Elem) :=
  findNthAux p page 0 k

/-- Concatenated text content of a select element (its options' texts). -/
def selectText (e : Elem) : String := String.join e.options

/-! Selector predicates — each transcribes one locator expression from
`fillAppointmentForm`.  CSS `[attr*=v]` is a case-sensitive substring match;
the `i` flag and Playwright `hasText`/`:has-text` are case-insensitive. -/

/-- `input[name*="name"], input[placeholder*="Name"], input[placeholder*="First Last"]` -/
def nameSel (e : Elem) : Bool :=
  e.tag == "input" && (containsStr e.nameAttr "name"
    || containsStr e.placeholder "Name" || containsStr e.placeholder "First Last")

/-- `input[name*="phone"], input[type="tel"], input[placeholder*="Phone"]` -/
def phoneSel (e : Elem) : Bool :=
  e.tag == "input" && (containsStr e.nameAttr "phone" || e.typeAttr == "tel"
    || containsStr e.placeholder "Phone")

/-- `input[name*="email"], input[type="email"], input[placeholder*="Email"]` -/
def emailSel (e : Elem) : Bool :=
  e.tag == "input" && (containsStr e.nameAttr "email" || e.typeAttr == "email"
    || containsStr e.placeholder "Email")

/-- `input[type="date"], input[name*="date" i], input[id*="date" i]` -/
def dateSelFull (e : Elem) : Bool :=
  e.tag == "input" && (e.typeAttr == "date" || containsCI e.nameAttr "date"
    || containsCI e.idAttr "date")

/-- `input[type="date"]` (the default-date branch). -/
def dateSelPlain (e : Elem) : Bool :=
  e.tag == "input" && e.typeAttr == "date"

/-- `select` filtered by `hasText: 'AM'` or-ed with `hasText: 'PM'`. -/
def timeSelPred (e : Elem) : Bool :=
  e.tag == "select" && (containsCI (selectText e) "AM"
    || containsCI (selectText e) "PM")

/-- plain `select` locator. -/
def selectPred (e : Elem) : Bool := e.tag == "select"

/-- `textarea[name*="comment"], textarea[name*="question"],
textarea[placeholder*="Question"], textarea[placeholder*="Comments"]` -/
def commentsSel (e : Elem) : Bool :=
  e.tag == "textarea" && (containsStr e.nameAttr "comment"
    || containsStr e.nameAttr "question" || containsStr e.placeholder "Question"
    || containsStr e.placeholder "Comments")

/-! ## Field filling (formFiller.ts lines 64-207)

Steps whose source is wrapped in a local `try/catch` (date, time, service
type) are total and return a plain event list; the name, phone, email and
comments fills are not locally guarded, so a throwing `fill` propagates to
the operation-level handler — they return `Except`. -/

/-- The shared shape of the name / phone / email / comments fills: if the
value is truthy, resolve the locator's first match, check visibility, and
`fill` — with no local exception handler. -/
def fillTextField (sel : Elem → Bool) (value : String) (page : List Elem)
    (o : Oracle) : Except String (List Ev) :=
  if value = "" then .ok []
  else
    match findNth sel page 0 with
    | none => .ok []
    | some (i, e) =>
      if e.visible then
        if o.fillFails i then .error "fill failed" else .ok [Ev.wrote i value]
      else .ok []

/-- Appointment-date step (lines 92-116).  Both branches are inside local
`try/catch`, so a throwing `fill` is absorbed (logged) and yields no event. -/
def fillDateStep (page : List Elem) (data : AppointmentData) (today : CivilDate)
    (o : Oracle) : List Ev :=
  if data.appointmentDate ≠ "" then
    match findNth dateSelFull page 0 with
    | none => []
    | some (i, e) =>
      if e.visible then
        if o.fillFails i then [] else [Ev.wrote i data.appointmentDate]
      else []
  else
    match findNth dateSelPlain page 0 with
    | none => []
    | some (i, e) =>
      if e.visible then
        if o.fillFails i then []
        else [Ev.wrote i (isoDateString (jsAddDays7 today))]
      else []

/-- The catch-block fallback shared by the time branches: select the option
at index 1 of the page's *first* `select`; a second failure (fewer than two
options, or an oracle fault) is absorbed. -/
def timeFallback (page : List Elem) (o : Oracle) : List Ev :=
  match findNth selectPred page 0 with
  | none => []
  | some (j, ej) =>
    if ej.visible then
      if o.selectFails j || ej.options.length ≤ 1 then []
      else [Ev.selected j 1]
    else []

/-- Appointment-time step (lines 118-152).  With a supplied value the
AM/PM-texted select receives `selectOption({label: value})` — an *exact*
label match — and on failure the code falls back to index 1 of the first
select; with no value it goes straight to that fallback. -/
def fillTimeStep (page : List Elem) (data : AppointmentData) (o : Oracle) :
    List Ev :=
  if data.appointmentTime ≠ "" then
    match findNth timeSelPred page 0 with
    | none => []
    | some (i, e) =>
      if e.visible then
        if o.selectFails i || !(e.options.contains data.appointmentTime) then
          timeFallback page o
        else [Ev.selectedLabel i data.appointmentTime]
      else []
  else timeFallback page o

/-- `options.find(opt => opt.text.toLowerCase().includes(value.toLowerCase()))`
— index of the first option whose display text contains the desired value
case-insensitively (lines 169-171). -/
def findMatchIdxAux (v : String) : List String → Nat → Option Nat
  | [], _ => none
  | t :: rest, i =>
    if containsStr (lowerStr t) (lowerStr v) then some i
    else findMatchIdxAux v rest (i + 1)

/-- First case-insensitive substring match of `v` among option texts. -/
def findMatchIdx (v : String) (opts : List String) : Option Nat :=
  findMatchIdxAux v opts 0

/-- Service-type step (lines 154-198), targeting `select.nth(1)` — the
second dropdown on the page.  A matching option is selected by index;
otherwise index 1; all failures are absorbed by the local `catch`. -/
def fillServiceStep (page : List Elem) (data : AppointmentData) (o : Oracle) :
    List Ev :=
  match findNth selectPred page 1 with
  | none => []
  | some (i, e) =>
    if e.visible then
      if data.serviceType ≠ "" then
        match findMatchIdx data.serviceType e.options with
        | some k => if o.selectFails i then [] else [Ev.selected i k]
        | none =>
          if o.selectFails i || e.options.length ≤ 1 then []
          else [Ev.selected i 1]
      else
        if o.selectFails i || e.options.length ≤ 1 then []
        else [Ev.selected i 1]
    else []

/-- The whole field phase, in source order: name, phone, email, date, time,
service type, comments. -/
def fillFields (page : List Elem) (data : AppointmentData) (today : CivilDate)
    (o : Oracle) : Except String (List Ev) := do
  let a ← fillTextField nameSel data.name page o
  let b ← fillTextField phoneSel data.phone page o
  let c ← fillTextField emailSel data.email page o
  let d := fillDateStep page data today o
  let t := fillTimeStep page data o
  let s := fillServiceStep page data o
  let cm ← fillTextField commentsSel data.comments page o
  .ok (a ++ b ++ c ++ d ++ t ++ s ++ cm)

/-! ## Submission cascade (lines 218-344) -/

/-- `button[type="submit"]` -/
def btnSubmitSel (e : Elem) : Bool := e.tag == "button" && e.typeAttr == "submit"

/-- `input[type="submit"]` -/
def inputSubmitSel (e : Elem) : Bool := e.tag == "input" && e.typeAttr == "submit"

/-- `form button:last-child` -/
def lastChildBtnSel (e : Elem) : Bool := e.tag == "button" && e.lastChild

/-- `form button` -/
def btnSel (e : Elem) : Bool := e.tag == "button"

/-- `button:has-text("s")` — case-insensitive substring on the text content. -/
def btnText (s : String) (e : Elem) : Bool :=
  e.tag == "button" && containsCI e.text s

/-- `[role="button"]:has-text("s")` -/
def roleText (s : String) (e : Elem) : Bool :=
  e.role == "button" && containsCI e.text s

/-- Strategy-1 selector list, in source order. -/
def strat1Sels : List (Elem → Bool) :=
  [btnSubmitSel, inputSubmitSel, lastChildBtnSel, btnSel]

/-- Strategy-2 selector list, in source order. -/
def strat2Sels : List (Elem → Bool) :=
  [btnText "Submit", btnText "Book", btnText "Send", btnText "Confirm",
   roleText "Submit", roleText "Book"]

/-- The per-selector loop shared by strategies 1 and 2: resolve `.first()`,
check visibility (a missing element reads as not visible), click; a throwing
click is caught and the loop continues with the next selector; a successful
click breaks the loop. -/
def runSelectorLoop (page : List Elem) (o : Oracle) (strategy : Nat) :
    List (Elem → Bool) → List Ev × Bool
  | [] => ([], false)
  | p :: ps =>
    match findNth p page 0 with
    | none => runSelectorLoop page o strategy ps
    | some (i, e) =>
      if e.visible then
        if o.clickFails i then
          let r := runSelectorLoop page o strategy ps
          (Ev.clickFailed strategy i :: r.1, r.2)
        else ([Ev.clicked strategy i], true)
      else runSelectorLoop page o strategy ps

/-- Buttons of the page paired with their document indices, starting at `i`. -/
def enumFrom (i : Nat) : List Elem → List (Nat × Elem)
  | [] => []
  | e :: rest => (i, e) :: enumFrom (i + 1) rest

/-- The strategy-4 in-page predicate: submit-typed, or text containing
`submit`/`book`/`send` (lower-cased). -/
def s4Pred (e : Elem) : Bool :=
  lowerStr e.typeAttr == "submit" || containsStr (lowerStr e.text) "submit"
    || containsStr (lowerStr e.text) "book" || containsStr (lowerStr e.text) "send"

/-- The four-strategy submission cascade.  Strategy 3 clicks the last form
button without a visibility check and without a local handler — a throwing
click there reaches the cascade-level `catch` and yields `false` directly.
Strategy 4 evaluates in-page script: among `button, input[type=submit]`
descendants it native-clicks the first `s4Pred` match, else the last button. -/
def submitCascade (page : List Elem) (o : Oracle) : List Ev × Bool :=
  let r1 := runSelectorLoop page o 1 strat1Sels
  let ev1 := Ev.strat 1 :: r1.1
  if r1.2 then (ev1, true)
  else
    let r2 := runSelectorLoop page o 2 strat2Sels
    let ev2 := ev1 ++ Ev.strat 2 :: r2.1
    if r2.2 then (ev2, true)
    else
      match ((enumFrom 0 page).filter (fun q => btnSel q.2)).getLast? with
      | some (i, _) =>
        if o.clickFails i then (ev2 ++ [Ev.strat 3, Ev.clickFailed 3 i], false)
        else (ev2 ++ [Ev.strat 3, Ev.clicked 3 i], true)
      | none =>
        let cands := (enumFrom 0 page).filter
          (fun q => btnSel q.2 || inputSubmitSel q.2)
        match (cands.find? (fun q => s4Pred q.2)).orElse (fun _ => cands.getLast?) with
        | some (i, _) =>
          (ev2 ++ [Ev.strat 3, Ev.strat 4, Ev.clicked 4 i], true)
        | none => (ev2 ++ [Ev.strat 3, Ev.strat 4], false)

/-- A loaded document: whether a `form` element exists (the
`waitForSelector('form')` guard) and the form's controls in document order. -/
structure PageDoc where
  hasForm : Bool := true
  elems : List Elem
  deriving Repr

/-- The full `fillAppointmentForm` operation.  Navigation or form-wait
failures reach the operation-level `catch`, which re-throws a wrapped error;
otherwise the field phase runs (its unguarded fills may also abort), then
the submission cascade decides the boolean result. -/
def fillAppointmentForm (doc : PageDoc) (data : AppointmentData)
    (today : CivilDate) (o : Oracle) : Except String (Bool × List Ev) :=
  if o.navOk = false then
    .error "Failed to fill appointment form: navigation failed"
  else if doc.hasForm = false then
    .error "Failed to fill appointment form: form not found"
  else
    match fillFields doc.elems data today o with
    | .error msg => .error ("Failed to fill appointment form: " ++ msg)
    | .ok fevs =>
      let r := submitCascade doc.elems o
      .ok (r.2, fevs ++ r.1)

/-! ## Theorems about field-name inference (claims C3, C4, C8) -/

/-- Any string extended from the literal `field_` is non-empty. -/
theorem field_prefixed_ne_empty (s : String) : "field_" ++ s ≠ "" := by
  intro h
  have h2 : ("field_" ++ s).data = ("" : String).data := by rw [h]
  simp [String.data_append] at h2

/-- The positional fallback never returns the empty string. -/
theorem positionalFallback_ne_empty (s : String) (i : Nat) :
    positionalFallback s i ≠ "" := by
  unfold positionalFallback
  split
  · assumption
  · exact field_prefixed_ne_empty _

/-- The positional fallback always yields a string of positive length. -/
theorem positionalFallback_length_pos (s : String) (i : Nat) :
    0 < (positionalFallback s i).length := by
  unfold positionalFallback
  split
  · rename_i h
    have hd : s.data ≠ [] := by
      intro hd
      apply h
      cases s
      simp at hd
      simp [hd]
    calc 0 < s.data.length := List.length_pos.mpr hd
      _ = s.length := rfl
  · show 0 < ("field_" ++ toString i).data.length
    rw [String.data_append]
    simp

/-- C3: field-name inference is total — for every discovered control it
returns a non-empty name (it is a pure function, so it cannot fail and
yields exactly one name), and when every attribute-based and content-based
signal is absent it falls back to the positional `field_<index>` name. -/
theorem claim_C3_inference_total : ∀ (e : Elem) (i : Nat),
    0 < (inferName e i).length ∧
    (e.nameAttr = "" → e.idAttr = "" → e.ariaLabel = "" →
      e.parentLabelText = none → e.dataName = "" → e.dataField = "" →
      sniffSelect e = "" → inferName e i = "field_" ++ toString i) := by
  intro e i
  refine ⟨positionalFallback_length_pos _ _, fun h1 h2 h3 h4 h5 h6 h7 => ?_⟩
  simp [inferName, positionalFallback, labelLookup, h1, h2, h3, h4, h5, h6, h7]

/-- Witness for C3 at a control carrying no signal at all. -/
theorem claim_C3_inference_total_witness :
    0 < (inferName { tag := "input" } 4).length ∧
    inferName { tag := "input" } 4 = "field_4" := by
  have h := claim_C3_inference_total { tag := "input" } 4
  exact ⟨h.1, h.2 rfl rfl rfl rfl rfl rfl (by decide)⟩

/-- C4: a non-empty `name` attribute is returned verbatim regardless of all
other signals, and more generally the signals are consulted in the fixed
order name, id, aria-label, label text, data-name, data-field — the first
non-empty one wins. -/
theorem claim_C4_name_attribute_wins : ∀ (e : Elem) (i : Nat),
    (e.nameAttr ≠ "" → inferName e i = e.nameAttr) ∧
    (e.nameAttr = "" → e.idAttr ≠ "" → inferName e i = e.idAttr) ∧
    (e.nameAttr = "" → e.idAttr = "" → e.ariaLabel ≠ "" →
      inferName e i = e.ariaLabel) ∧
    (e.nameAttr = "" → e.idAttr = "" → e.ariaLabel = "" →
      e.parentLabelText = none → e.dataName ≠ "" →
      inferName e i = e.dataName) ∧
    (e.nameAttr = "" → e.idAttr = "" → e.ariaLabel = "" →
      e.parentLabelText = none → e.dataName = "" → e.dataField ≠ "" →
      inferName e i = e.dataField) := by
  intro e i
  refine ⟨fun h1 => ?_, fun h1 h2 => ?_, fun h1 h2 h3 => ?_,
    fun h1 h2 h3 h4 h5 => ?_, fun h1 h2 h3 h4 h5 h6 => ?_⟩
  · simp [inferName, positionalFallback, h1]
  · simp [inferName, positionalFallback, h1, h2]
  · simp [inferName, positionalFallback, h1, h2, h3]
  · simp [inferName, positionalFallback, labelLookup, h1, h2, h3, h4, h5]
  · simp [inferName, positionalFallback, labelLookup, h1, h2, h3, h4, h5, h6]

/-- A control carrying every signal at once, for the C4 witness. -/
def fullySignalledControl : Elem where
  tag := "select"
  nameAttr := "svc"
  idAttr := "other"
  ariaLabel := "Service"
  dataName := "x"
  options := ["-", "Checkup"]

/-- Witness for C4: a control with every signal populated still yields its
`name` attribute. -/
theorem claim_C4_name_attribute_wins_witness :
    inferName fullySignalledControl 3 = "svc" :=
  (claim_C4_name_attribute_wins fullySignalledControl 3).1 (by decide)

/-- The time-options example from the claim: a bare select with options
`["-","9:00 AM","10:00 AM"]`. -/
def timeOptionsSelect : Elem := { tag := "select", options := ["-", "9:00 AM", "10:00 AM"] }

/-- The service-options example from the claim: a bare select with options
`["-","Checkup","Cleaning"]`. -/
def serviceOptionsSelect : Elem := { tag := "select", options := ["-", "Checkup", "Cleaning"] }

/-- C8: when a select control reaches the option-content-sniffing stage, the
joined non-empty option texts decide the name: a time-looking text yields
`appointment_time`, otherwise a service-vocabulary text yields
`service_type`; in particular the two concrete option lists from the claim
infer to `appointment_time` and `service_type`. -/
theorem claim_C8_option_sniffing :
    (∀ (e : Elem) (i : Nat),
      e.tag = "select" → e.nameAttr = "" → e.idAttr = "" → e.ariaLabel = "" →
      e.parentLabelText = none → e.dataName = "" → e.dataField = "" →
      (timeSignal e = true → inferName e i = "appointment_time") ∧
      (timeSignal e = false → serviceSignal e = true →
        inferName e i = "service_type")) ∧
    inferName timeOptionsSelect 0 = "appointment_time" ∧
    inferName serviceOptionsSelect 0 = "service_type" := by
  refine ⟨fun e i htag hn hid ha hpl hdn hdf => ⟨fun ht => ?_, fun ht hs => ?_⟩,
    by decide, by decide⟩
  · simp [inferName, positionalFallback, labelLookup, sniffSelect, hn, hid, ha,
      hpl, hdn, hdf, htag, ht]
  · simp [inferName, positionalFallback, labelLookup, sniffSelect, hn, hid, ha,
      hpl, hdn, hdf, htag, ht, hs]

/-- Witness for C8, applying the general sniffing statement to the
time-options example. -/
theorem claim_C8_option_sniffing_witness :
    inferName timeOptionsSelect 2 = "appointment_time" :=
  (claim_C8_option_sniffing.1 timeOptionsSelect 2 rfl rfl rfl rfl rfl rfl rfl).1
    (by decide)

/-! ## Calendar facts and the default-date claim (C6) -/

/-- Arithmetic characterisation of the leap-year test. -/
theorem isLeap_iff (y : Nat) :
    isLeap y = true ↔ ((y % 4 = 0 ∧ y % 100 ≠ 0) ∨ y % 400 = 0) := by
  simp [isLeap, Bool.or_eq_true, Bool.and_eq_true, beq_iff_eq, bne_iff_ne]

/-- Stepping the cumulative-month table by one month adds that month's
length. -/
theorem monthsBefore_next (y m : Nat) (h1 : 1 ≤ m) (h2 : m ≤ 11) :
    monthsBefore y (m + 1) = monthsBefore y m + daysInMonth y m := by
  interval_cases m <;> rcases hL : isLeap y <;>
    simp [monthsBefore, monthTable, daysInMonth, hL]

/-- Day-count change when the added week stays inside the month. -/
theorem add7_same (y m d : Nat) (_h : d + 7 ≤ daysInMonth y m) :
    daysFromCivil ⟨y, m, d + 7⟩ = daysFromCivil ⟨y, m, d⟩ + 7 := by
  simp only [daysFromCivil]
  omega

set_option maxHeartbeats 1000000 in
/-- Day-count change when the added week crosses a December year boundary. -/
theorem add7_year (y d : Nat) (hy : 1 ≤ y) (hd2 : d ≤ 31) (h1 : 31 < d + 7) :
    daysFromCivil ⟨y + 1, 1, d + 7 - 31⟩ = daysFromCivil ⟨y, 12, d⟩ + 7 := by
  have hmb1 : monthsBefore (y + 1) 1 = 0 := by
    simp [monthsBefore, monthTable]
  have hmb12 : monthsBefore y 12 = if isLeap y = true then 335 else 334 := by
    rcases hL : isLeap y <;> simp [monthsBefore, monthTable, hL]
  simp only [daysFromCivil, hmb1, hmb12]
  rcases hL : isLeap y with _ | _
  · have hnl : ¬((y % 4 = 0 ∧ y % 100 ≠ 0) ∨ y % 400 = 0) := by
      rw [← isLeap_iff, hL]
      simp
    rw [show (if false = true then 335 else 334) = 334 from rfl]
    omega
  · have hl : ((y % 4 = 0 ∧ y % 100 ≠ 0) ∨ y % 400 = 0) := (isLeap_iff y).mp hL
    rw [show (if true = true then 335 else 334) = 335 from rfl]
    omega

/-- Day-count change when the added week crosses an in-year month boundary. -/
theorem add7_mid (y m d : Nat) (hm1 : 1 ≤ m) (hm11 : m ≤ 11)
    (hd2 : d ≤ daysInMonth y m) (h1 : daysInMonth y m < d + 7) :
    daysFromCivil ⟨y, m + 1, d + 7 - daysInMonth y m⟩ =
      daysFromCivil ⟨y, m, d⟩ + 7 := by
  simp only [daysFromCivil]
  rw [monthsBefore_next y m hm1 hm11]
  omega

/-- `setDate(getDate() + 7)` advances the linear day count by exactly 7 on
every valid calendar date. -/
theorem add7_days (c : CivilDate) (h : validCivil c) :
    daysFromCivil (jsAddDays7 c) = daysFromCivil c + 7 := by
  obtain ⟨y, m, d⟩ := c
  obtain ⟨hy, hm1, hm2, hd1, hd2⟩ := h
  simp only at hy hm1 hm2 hd1 hd2
  by_cases h1 : d + 7 ≤ daysInMonth y m
  · have heq : jsAddDays7 ⟨y, m, d⟩ = ⟨y, m, d + 7⟩ := by
      simp [jsAddDays7, h1]
    rw [heq]
    exact add7_same y m d h1
  · by_cases h2 : m = 12
    · subst h2
      have hdim : daysInMonth y 12 = 31 := by simp [daysInMonth]
      have heq : jsAddDays7 ⟨y, 12, d⟩ = ⟨y + 1, 1, d + 7 - 31⟩ := by
        simp [jsAddDays7, h1]
      rw [heq]
      rw [hdim] at h1 hd2
      exact add7_year y d hy hd2 (by omega)
    · have heq : jsAddDays7 ⟨y, m, d⟩ = ⟨y, m + 1, d + 7 - daysInMonth y m⟩ := by
        simp [jsAddDays7, h1, h2]
      rw [heq]
      exact add7_mid y m d hm1 (by omega) hd2 (by omega)

/-- The ISO renderer always produces the ten-character `YYYY-MM-DD` shape. -/
theorem isoDateString_shape (c : CivilDate) :
    isIsoShape (isoDateString c) = true := by
  have hdig : ∀ k, k < 10 → (digitChar k).isDigit = true := by decide
  have h : ∀ n : Nat, (digitChar (n % 10)).isDigit = true :=
    fun n => hdig _ (Nat.mod_lt _ (by norm_num))
  simp [isIsoShape, isoDateString, pad4, pad2, h]

/-- C6: with an empty `appointmentDate` and a visible `input[type=date]`,
the date step writes the default date into that input; the written string
is the ISO rendering of a calendar date whose linear day count is exactly
7 more than today's, in the `YYYY-MM-DD` shape. -/
theorem claim_C6_default_date_one_week :
    ∀ (page : List Elem) (data : AppointmentData) (today : CivilDate)
      (o : Oracle) (i : Nat) (e : Elem),
    data.appointmentDate = "" →
    findNth dateSelPlain page 0 = some (i, e) → e.visible = true →
    o.fillFails i = false → validCivil today →
    fillDateStep page data today o =
      [Ev.wrote i (isoDateString (jsAddDays7 today))] ∧
    daysFromCivil (jsAddDays7 today) = daysFromCivil today + 7 ∧
    isIsoShape (isoDateString (jsAddDays7 today)) = true := by
  intro page data today o i e hdate hfind hvis hfail hvalid
  refine ⟨?_, add7_days today hvalid, isoDateString_shape _⟩
  simp [fillDateStep, hdate, hfind, hvis, hfail]

/-- A bare date input, for concrete pages. -/
def dateInput : Elem := { tag := "input", typeAttr := "date" }

/-- Witness for C6 on a one-control page, today being 2025-12-28 (the
default written is 2026-01-04). -/
theorem claim_C6_default_date_one_week_witness :
    fillDateStep [dateInput] {} ⟨2025, 12, 28⟩ noFail =
      [Ev.wrote 0 (isoDateString (jsAddDays7 ⟨2025, 12, 28⟩))] ∧
    daysFromCivil (jsAddDays7 ⟨2025, 12, 28⟩) =
      daysFromCivil ⟨2025, 12, 28⟩ + 7 ∧
    isIsoShape (isoDateString (jsAddDays7 ⟨2025, 12, 28⟩)) = true :=
  claim_C6_default_date_one_week [dateInput] {} ⟨2025, 12, 28⟩ noFail 0
    dateInput rfl (by decide) rfl rfl (by decide)

/-! ## Submission-cascade theorems (claims C1, C2) -/

/-- If no element of the page satisfies `p`, no occurrence is found. -/
theorem findNthAux_none (p : Elem → Bool) (l : List Elem)
    (h : ∀ e ∈ l, p e = false) : ∀ i k, findNthAux p l i k = none := by
  induction l with
  | nil => intro i k; rfl
  | cons a t ih =>
    intro i k
    have ha := h a (by simp)
    simp [findNthAux, ha]
    exact ih (fun e he => h e (by simp [he])) _ _

/-- `findNth` finds nothing when the predicate holds nowhere on the page. -/
theorem findNth_none (p : Elem → Bool) (l : List Elem)
    (h : ∀ e ∈ l, p e = false) (k : Nat) : findNth p l k = none :=
  findNthAux_none p l h 0 k

/-- Elements listed by `enumFrom` are elements of the underlying list. -/
theorem enumFrom_mem (l : List Elem) :
    ∀ (i n : Nat) (e : Elem), (n, e) ∈ enumFrom i l → e ∈ l := by
  induction l with
  | nil => intro i n e h; cases h
  | cons a t ih =>
    intro i n e hmem
    simp only [enumFrom, List.mem_cons, Prod.mk.injEq] at hmem
    rcases hmem with ⟨-, he⟩ | hmem
    · simp [he]
    · exact List.mem_cons_of_mem _ (ih _ _ _ hmem)

/-- Filtering an enumeration by a predicate that holds nowhere is empty. -/
theorem enumFrom_filter_nil (p : Elem → Bool) (l : List Elem)
    (h : ∀ e ∈ l, p e = false) (i : Nat) :
    (enumFrom i l).filter (fun q => p q.2) = [] := by
  rw [List.filter_eq_nil_iff]
  intro q hq
  have hm : q.2 ∈ l := enumFrom_mem l i q.1 q.2 (by simpa using hq)
  simp [h q.2 hm]

/-- On a page with no buttons, no ARIA buttons and no submit-typed inputs,
every strategy of the cascade comes up empty: the result is `false`, with
all four strategies having been attempted and none clicking. -/
theorem submitCascade_no_controls (page : List Elem) (o : Oracle)
    (h : ∀ e ∈ page, e.tag ≠ "button" ∧ (e.tag = "input" → e.typeAttr ≠ "submit")
      ∧ e.role ≠ "button") :
    submitCascade page o =
      ([Ev.strat 1, Ev.strat 2, Ev.strat 3, Ev.strat 4], false) := by
  have hbtn : ∀ e ∈ page, btnSel e = false := by
    intro e he
    simp [btnSel, (h e he).1]
  have hbs : ∀ e ∈ page, btnSubmitSel e = false := by
    intro e he
    simp [btnSubmitSel, (h e he).1]
  have his : ∀ e ∈ page, inputSubmitSel e = false := by
    intro e he
    rcases h e he with ⟨-, h2, -⟩
    simp [inputSubmitSel]
    intro htag
    exact h2 htag
  have hlc : ∀ e ∈ page, lastChildBtnSel e = false := by
    intro e he
    simp [lastChildBtnSel, (h e he).1]
  have hbt : ∀ s, ∀ e ∈ page, btnText s e = false := by
    intro s e he
    simp [btnText, (h e he).1]
  have hrt : ∀ s, ∀ e ∈ page, roleText s e = false := by
    intro s e he
    simp [roleText, (h e he).2.2]
  have hcand : ∀ e ∈ page, (btnSel e || inputSubmitSel e) = false := by
    intro e he
    simp [hbtn e he, his e he]
  simp [submitCascade, strat1Sels, strat2Sels, runSelectorLoop,
    findNth_none _ _ hbs, findNth_none _ _ his, findNth_none _ _ hlc,
    findNth_none _ _ hbtn, findNth_none _ _ (hbt "Submit"),
    findNth_none _ _ (hbt "Book"), findNth_none _ _ (hbt "Send"),
    findNth_none _ _ (hbt "Confirm"), findNth_none _ _ (hrt "Submit"),
    findNth_none _ _ (hrt "Book"),
    enumFrom_filter_nil _ _ hbtn, enumFrom_filter_nil _ _ hcand]

/-- An unguarded text fill succeeds whenever the oracle raises no fill
faults. -/
theorem fillTextField_ok (sel : Elem → Bool) (v : String) (page : List Elem)
    (o : Oracle) (h : ∀ j, o.fillFails j = false) :
    ∃ evs, fillTextField sel v page o = .ok evs := by
  simp only [fillTextField, h]
  split
  · exact ⟨[], rfl⟩
  · split
    · exact ⟨[], rfl⟩
    · split
      · simp
      · exact ⟨[], rfl⟩

/-- The whole field phase succeeds whenever the oracle raises no fill
faults (select faults are always absorbed locally). -/
theorem fillFields_ok (page : List Elem) (data : AppointmentData)
    (today : CivilDate) (o : Oracle) (h : ∀ j, o.fillFails j = false) :
    ∃ evs, fillFields page data today o = .ok evs := by
  obtain ⟨a, ha⟩ := fillTextField_ok nameSel data.name page o h
  obtain ⟨b, hb⟩ := fillTextField_ok phoneSel data.phone page o h
  obtain ⟨c, hc⟩ := fillTextField_ok emailSel data.email page o h
  obtain ⟨cm, hcm⟩ := fillTextField_ok commentsSel data.comments page o h
  exact ⟨a ++ b ++ c ++ fillDateStep page data today o ++ fillTimeStep page data o
    ++ fillServiceStep page data o ++ cm,
    by simp [fillFields, ha, hb, hc, hcm, bind, Except.bind]⟩

/-- An invisible `button[type=submit]`, placed before a visible one. -/
def hiddenSubmitButton : Elem :=
  { tag := "button", typeAttr := "submit", visible := false }

/-- A visible `button[type=submit]`. -/
def visibleSubmitButton : Elem := { tag := "button", typeAttr := "submit" }

/-- C1 counterexample: this page contains a visible `button[type=submit]`,
yet strategy 1 clicks nothing — its `.first()` locators only examine the
hidden first match — and the click is performed by strategy 3 (strategies 2
and 3 both execute), so no strategy-1 click occurs. -/
theorem claim_C1_counterexample :
    ([hiddenSubmitButton, visibleSubmitButton].any
        (fun e => btnSubmitSel e && e.visible)) = true ∧
    submitCascade [hiddenSubmitButton, visibleSubmitButton] noFail =
      ([Ev.strat 1, Ev.strat 2, Ev.strat 3, Ev.clicked 3 1], true) ∧
    ((submitCascade [hiddenSubmitButton, visibleSubmitButton] noFail).1.all
        (fun ev => match ev with | Ev.clicked 1 _ => false | _ => true)) = true := by
  decide

/-- C1 (amended): when the *first* `button[type=submit]` of the page is
visible and its click does not fault, strategy 1 clicks exactly it, once,
and no later strategy executes — the cascade's trace is exactly one
strategy-1 attempt followed by that single click. -/
theorem claim_C1_strategy1_short_circuit :
    ∀ (page : List Elem) (o : Oracle) (i : Nat) (e : Elem),
    findNth btnSubmitSel page 0 = some (i, e) → e.visible = true →
    o.clickFails i = false →
    submitCascade page o = ([Ev.strat 1, Ev.clicked 1 i], true) := by
  intro page o i e hfind hvis hfail
  simp [submitCascade, strat1Sels, runSelectorLoop, hfind, hvis, hfail]

/-- Witness for the amended C1 on a single-button page. -/
theorem claim_C1_strategy1_short_circuit_witness :
    submitCascade [visibleSubmitButton] noFail =
      ([Ev.strat 1, Ev.clicked 1 0], true) :=
  claim_C1_strategy1_short_circuit [visibleSubmitButton] noFail 0
    visibleSubmitButton (by decide) rfl rfl

/-- C2: when navigation and form loading succeed, no fill faults occur, and
the page offers no button-like control at all (so every submission strategy
fails to find anything), the operation returns `.ok` with result `false` —
never an exception — and its trace consists of exactly the field-phase
events followed by the four fruitless strategy attempts, i.e. all matched
field values were written before the `false` was returned. -/
theorem claim_C2_all_strategies_fail_returns_false :
    ∀ (doc : PageDoc) (data : AppointmentData) (today : CivilDate) (o : Oracle),
    o.navOk = true → doc.hasForm = true →
    (∀ e ∈ doc.elems, e.tag ≠ "button" ∧ (e.tag = "input" → e.typeAttr ≠ "submit")
      ∧ e.role ≠ "button") →
    (∀ j, o.fillFails j = false) →
    ∃ fevs, fillFields doc.elems data today o = .ok fevs ∧
      fillAppointmentForm doc data today o =
        .ok (false, fevs ++ [Ev.strat 1, Ev.strat 2, Ev.strat 3, Ev.strat 4]) := by
  intro doc data today o hnav hform hctrl hfill
  obtain ⟨fevs, hf⟩ := fillFields_ok doc.elems data today o hfill
  refine ⟨fevs, hf, ?_⟩
  simp [fillAppointmentForm, hnav, hform, hf,
    submitCascade_no_controls doc.elems o hctrl]

/-- A visible text input whose `name` attribute matches the name-field
selector. -/
def nameInput : Elem := { tag := "input", nameAttr := "customer_name" }

/-- A form holding only the name input — no submit control of any kind. -/
def buttonlessDoc : PageDoc := { elems := [nameInput] }

/-- A record supplying only the name value. -/
def nameOnlyData : AppointmentData := { name := "John Doe" }

/-- Witness for C2: the name is written, all four strategies run empty, and
the operation returns `false` without throwing. -/
theorem claim_C2_all_strategies_fail_returns_false_witness :
    ∃ fevs, fillFields buttonlessDoc.elems nameOnlyData ⟨2025, 10, 11⟩ noFail
        = .ok fevs ∧
      fillAppointmentForm buttonlessDoc nameOnlyData ⟨2025, 10, 11⟩ noFail =
        .ok (false, fevs ++ [Ev.strat 1, Ev.strat 2, Ev.strat 3, Ev.strat 4]) :=
  claim_C2_all_strategies_fail_returns_false buttonlessDoc nameOnlyData
    ⟨2025, 10, 11⟩ noFail rfl rfl (by decide) (fun j => rfl)

/-! ## Per-field error propagation (claim C5) -/

deriving instance DecidableEq for Except

/-- An unguarded text fill succeeds when the control it targets (if any)
raises no fill fault — faults elsewhere on the page are irrelevant. -/
theorem fillTextField_ok_of_target (sel : Elem → Bool) (v : String)
    (page : List Elem) (o : Oracle)
    (h : ∀ i e, findNth sel page 0 = some (i, e) → e.visible = true →
      o.fillFails i = false) :
    ∃ evs, fillTextField sel v page o = .ok evs := by
  unfold fillTextField
  split
  · exact ⟨[], rfl⟩
  · cases hf : findNth sel page 0 with
    | none => exact ⟨[], rfl⟩
    | some pr =>
      obtain ⟨i, e⟩ := pr
      rcases hv : e.visible
      · simp [hf, hv]
      · have hnf := h i e hf hv
        simp [hf, hv, hnf]

/-- C5 (amended): assignment errors on the appointment date, appointment
time and service type are absorbed by their local handlers — with arbitrary
select faults and arbitrary fill faults away from the name, phone, email and
comments targets, the operation still completes with an `.ok` result and the
submission cascade runs.  (Errors on the four unguarded text fills, by
contrast, abort the whole operation: see the counterexample.) -/
theorem claim_C5_guarded_steps_absorb_errors :
    ∀ (doc : PageDoc) (data : AppointmentData) (today : CivilDate) (o : Oracle),
    o.navOk = true → doc.hasForm = true →
    (∀ i e, findNth nameSel doc.elems 0 = some (i, e) → e.visible = true →
      o.fillFails i = false) →
    (∀ i e, findNth phoneSel doc.elems 0 = some (i, e) → e.visible = true →
      o.fillFails i = false) →
    (∀ i e, findNth emailSel doc.elems 0 = some (i, e) → e.visible = true →
      o.fillFails i = false) →
    (∀ i e, findNth commentsSel doc.elems 0 = some (i, e) → e.visible = true →
      o.fillFails i = false) →
    ∃ b evs, fillAppointmentForm doc data today o = .ok (b, evs) := by
  intro doc data today o hnav hform h1 h2 h3 h4
  obtain ⟨a, ha⟩ := fillTextField_ok_of_target nameSel data.name doc.elems o h1
  obtain ⟨b, hb⟩ := fillTextField_ok_of_target phoneSel data.phone doc.elems o h2
  obtain ⟨c, hc⟩ := fillTextField_ok_of_target emailSel data.email doc.elems o h3
  obtain ⟨cm, hcm⟩ :=
    fillTextField_ok_of_target commentsSel data.comments doc.elems o h4
  have hff : fillFields doc.elems data today o = .ok (a ++ b ++ c
      ++ fillDateStep doc.elems data today o ++ fillTimeStep doc.elems data o
      ++ fillServiceStep doc.elems data o ++ cm) := by
    simp [fillFields, ha, hb, hc, hcm, bind, Except.bind]
  refine ⟨(submitCascade doc.elems o).2, a ++ b ++ c
      ++ fillDateStep doc.elems data today o ++ fillTimeStep doc.elems data o
      ++ fillServiceStep doc.elems data o ++ cm
      ++ (submitCascade doc.elems o).1, ?_⟩
  simp [fillAppointmentForm, hnav, hform, hff]

/-- An oracle on which every `fill` throws. -/
def faultingOracle : Oracle := { fillFails := fun _ => true }

/-- A visible name input (matched by the name-field selector). -/
def unguardedNameInput : Elem := { tag := "input", nameAttr := "name" }

/-- The one-control page for the C5 counterexample. -/
def c5Doc : PageDoc := { elems := [unguardedNameInput] }

/-- A record supplying only the name. -/
def c5Data : AppointmentData := { name := "Ann" }

/-- C5 counterexample: an error while assigning the *name* field is not
caught locally — the very same invocation that succeeds under a fault-free
oracle aborts with a wrapped exception when the name fill throws, so a
field-assignment error can abort the whole operation. -/
theorem claim_C5_counterexample :
    fillAppointmentForm c5Doc c5Data ⟨2025, 10, 11⟩ faultingOracle =
      .error "Failed to fill appointment form: fill failed" ∧
    fillAppointmentForm c5Doc c5Data ⟨2025, 10, 11⟩ noFail =
      .ok (false,
        [Ev.wrote 0 "Ann", Ev.strat 1, Ev.strat 2, Ev.strat 3, Ev.strat 4]) := by
  decide

/-- An oracle whose select operations always throw and whose fills throw on
every control except the first. -/
def c5SelectFaultOracle : Oracle :=
  { selectFails := fun _ => true, fillFails := fun i => 1 ≤ i }

/-- A date input for the C5 witness page. -/
def c5DateInput : Elem := { tag := "input", typeAttr := "date" }

/-- A time select for the C5 witness page. -/
def c5TimeSelect : Elem := { tag := "select", options := ["-", "9:00 AM"] }

/-- Witness for the amended C5: with the date fill and every select
faulting, the operation still returns `.ok`. -/
theorem claim_C5_guarded_steps_absorb_errors_witness :
    ∃ b evs, fillAppointmentForm
      { elems := [unguardedNameInput, c5DateInput, c5TimeSelect] }
      c5Data ⟨2025, 6, 1⟩ c5SelectFaultOracle = .ok (b, evs) :=
  claim_C5_guarded_steps_absorb_errors
    { elems := [unguardedNameInput, c5DateInput, c5TimeSelect] } c5Data
    ⟨2025, 6, 1⟩ c5SelectFaultOracle rfl rfl
    (fun i e h hv => by
      rw [show findNth nameSel [unguardedNameInput, c5DateInput, c5TimeSelect] 0
          = some (0, unguardedNameInput) from by decide] at h
      cases h
      rfl)
    (fun i e h => nomatch h) (fun i e h => nomatch h) (fun i e h => nomatch h)

/-! ## Dropdown value matching (claim C7) -/

/-- The time select of the C7 counterexample. -/
def c7TimeSelect : Elem := { tag := "select", options := ["-", "9:00 AM", "10:00 AM"] }

/-- A supplied time differing from an option text only in letter case. -/
def c7TimeData : AppointmentData := { appointmentTime := "10:00 am" }

/-- C7 counterexample: a case-insensitive substring match for the supplied
time exists at option index 2, yet the time step selects index 1 — the time
dropdown is driven by an exact `selectOption({label})` match whose failure
falls back to index 1 of the page's first select, not by the
case-insensitive matcher the claim describes. -/
theorem claim_C7_counterexample :
    findMatchIdx c7TimeData.appointmentTime c7TimeSelect.options = some 2 ∧
    fillTimeStep [c7TimeSelect] c7TimeData noFail = [Ev.selected 0 1] := by
  decide

/-- C7 (amended): the *service-type* dropdown is driven by case-insensitive
substring matching on option texts with an index-1 default on no match or
absent value; the *appointment-time* dropdown is driven by exact label
matching, falling back — on a missing label or absent value — to selecting
index 1 of the page's first select. -/
theorem claim_C7_dropdown_matching :
    ∀ (page : List Elem) (data : AppointmentData) (o : Oracle),
    (∀ i e k, data.serviceType ≠ "" → findNth selectPred page 1 = some (i, e) →
      e.visible = true → o.selectFails i = false →
      findMatchIdx data.serviceType e.options = some k →
      fillServiceStep page data o = [Ev.selected i k]) ∧
    (∀ i e, data.serviceType ≠ "" → findNth selectPred page 1 = some (i, e) →
      e.visible = true → o.selectFails i = false →
      findMatchIdx data.serviceType e.options = none → 2 ≤ e.options.length →
      fillServiceStep page data o = [Ev.selected i 1]) ∧
    (∀ i e, data.serviceType = "" → findNth selectPred page 1 = some (i, e) →
      e.visible = true → o.selectFails i = false → 2 ≤ e.options.length →
      fillServiceStep page data o = [Ev.selected i 1]) ∧
    (∀ i e, data.appointmentTime ≠ "" → findNth timeSelPred page 0 = some (i, e) →
      e.visible = true → o.selectFails i = false →
      e.options.contains data.appointmentTime = true →
      fillTimeStep page data o = [Ev.selectedLabel i data.appointmentTime]) ∧
    (∀ i e, data.appointmentTime ≠ "" → findNth timeSelPred page 0 = some (i, e) →
      e.visible = true → e.options.contains data.appointmentTime = false →
      fillTimeStep page data o = timeFallback page o) ∧
    (data.appointmentTime = "" → fillTimeStep page data o = timeFallback page o) ∧
    (∀ j ej, findNth selectPred page 0 = some (j, ej) → ej.visible = true →
      o.selectFails j = false → 2 ≤ ej.options.length →
      timeFallback page o = [Ev.selected j 1]) := by
  intro page data o
  refine ⟨fun i e k hst hf hv hsf hm => ?_, fun i e hst hf hv hsf hm hlen => ?_,
    fun i e hst hf hv hsf hlen => ?_, fun i e hat hf hv hsf hc => ?_,
    fun i e hat hf hv hc => ?_, fun hat => ?_, fun j ej hf hv hsf hlen => ?_⟩
  · simp [fillServiceStep, hst, hf, hv, hsf, hm]
  · have hl : ¬(e.options.length ≤ 1) := by omega
    simp [fillServiceStep, hst, hf, hv, hsf, hm, hl]
  · have hl : ¬(e.options.length ≤ 1) := by omega
    simp [fillServiceStep, hst, hf, hv, hsf, hl]
  · have hc2 : data.appointmentTime ∈ e.options := by simpa using hc
    simp [fillTimeStep, hat, hf, hv, hsf, hc2]
  · have hc2 : data.appointmentTime ∉ e.options := by simpa using hc
    simp [fillTimeStep, hat, hf, hv, hc2]
  · simp [fillTimeStep, hat]
  · have hl : ¬(ej.options.length ≤ 1) := by omega
    simp [timeFallback, hf, hv, hsf, hl]

/-- First select of the C7 witness page. -/
def c7FirstSelect : Elem := { tag := "select", options := ["-", "9:00 AM"] }

/-- Second select (service dropdown) of the C7 witness page. -/
def c7ServiceSelect : Elem := { tag := "select", options := ["-", "Checkup", "Cleaning"] }

/-- A service value matching `Cleaning` only case-insensitively. -/
def c7ServiceData : AppointmentData := { serviceType := "clean" }

/-- Witness for the amended C7: `clean` selects the `Cleaning` option of the
second dropdown by case-insensitive substring match. -/
theorem claim_C7_dropdown_matching_witness :
    fillServiceStep [c7FirstSelect, c7ServiceSelect] c7ServiceData noFail =
      [Ev.selected 1 2] :=
  (claim_C7_dropdown_matching [c7FirstSelect, c7ServiceSelect] c7ServiceData
    noFail).1 1 c7ServiceSelect 2 (by decide) (by decide) rfl rfl (by decide)

end FormApp

namespace VoiceApp

/-! ## OpenAI intent pipeline (openaiService.ts, claim C9)

`processAudioCommand` chains the transcription call and the intent analysis
inside one `try/catch` that converts every thrown error into an
`IntentResult` value.  The external effects — file existence, the two API
calls and `JSON.parse` on the model output — are supplied by an environment
record. -/

/-- `IntentResult` from types.ts; the intent is kept as a raw string, as at
runtime the parsed model output can hold any value until validated. -/
structure IntentResult where
  intent : String
  response : String
  status : String
  deriving Repr, DecidableEq

/-- The shape of a parsed model reply: the `intent` property may be absent
(JS `undefined`, modelled by `none`). -/
structure RawJson where
  intent : Option String
  response : String
  deriving Repr, DecidableEq

/-- The environment of one `processAudioCommand` run: whether the audio file
exists, the outcome of the Whisper call, the outcome of the chat-completion
call (with `none` for a missing message content), and the outcome of
`JSON.parse` on that content. -/
structure OpenAIEnv where
  audioFileExists : Bool
  transcription : Except String String
  chatContent : Except String (Option String)
  parsed : Option RawJson

/-- The three intent values admitted by the validation step. -/
def allowedIntents : List String := ["book_appointment", "other", "unclear"]

/-- `transcribeAudio`: throws when the audio file is missing, otherwise
the Whisper call decides the outcome. -/
def transcribeAudio (env : OpenAIEnv) : Except String String :=
  if env.audioFileExists = false then .error "Audio file not found"
  else env.transcription

/-- `analyzeIntent`: a missing message content throws; an unparsable reply
produces the `unclear`/`error` fallback result; then any empty or
out-of-vocabulary intent is coerced to `unclear`. -/
def analyzeIntent (env : OpenAIEnv) : Except String IntentResult :=
  match env.chatContent with
  | .error e => .error e
  | .ok none => .error "No response from OpenAI"
  | .ok (some _) =>
    let r : IntentResult :=
      match env.parsed with
      | some j =>
        { intent := j.intent.getD "", response := j.response, status := "success" }
      | none =>
        { intent := "unclear", response := "Could not parse AI response",
          status := "error" }
    let r2 := if r.intent = "" ∨ r.intent ∉ allowedIntents then
        { r with intent := "unclear" } else r
    .ok r2

/-- `processAudioCommand`: the two steps under the catch-all handler that
turns every thrown error into an `error`/`unclear` result — the function is
total by construction, never propagating an exception. -/
def processAudioCommand (env : OpenAIEnv) : IntentResult :=
  match (do
      let _t ← transcribeAudio env
      analyzeIntent env : Except String IntentResult) with
  | .ok r => r
  | .error e =>
    { intent := "unclear", response := "Failed to process audio command: " ++ e,
      status := "error" }

/-- Whether an `Except` outcome is an error. -/
def isErr {ε α : Type} : Except ε α → Bool
  | .error _ => true
  | .ok _ => false

/-- C9: `processAudioCommand` is total over failures — it always returns an
intent from the admitted set; on every failure (missing file, transcription
error, chat error, missing content, unparsable output) the result has
status `error` and intent `unclear`; and a parsed intent outside the
admitted set is coerced to `unclear`. -/
theorem claim_C9_process_audio_total :
    ∀ (env : OpenAIEnv),
    (processAudioCommand env).intent ∈ allowedIntents ∧
    ((env.audioFileExists = false ∨ isErr env.transcription = true ∨
        isErr env.chatContent = true ∨ env.chatContent = .ok none ∨
        env.parsed = none) →
      (processAudioCommand env).status = "error" ∧
      (processAudioCommand env).intent = "unclear") ∧
    (∀ j, env.parsed = some j → j.intent.getD "" ∉ allowedIntents →
      (processAudioCommand env).intent = "unclear") := by
  intro env
  obtain ⟨fe, tr, cc, pj⟩ := env
  refine ⟨?_, ?_, ?_⟩
  · rcases fe with _ | _
    · simp [processAudioCommand, transcribeAudio, bind, Except.bind, allowedIntents]
    · rcases tr with e | t
      · simp [processAudioCommand, transcribeAudio, bind, Except.bind, allowedIntents]
      · rcases cc with e | oc
        · simp [processAudioCommand, transcribeAudio, analyzeIntent, bind,
            Except.bind, allowedIntents]
        · rcases oc with _ | c
          · simp [processAudioCommand, transcribeAudio, analyzeIntent, bind,
              Except.bind, allowedIntents]
          · rcases pj with _ | j
            · simp [processAudioCommand, transcribeAudio, analyzeIntent, bind,
                Except.bind, allowedIntents]
            · by_cases hi : (j.intent.getD "" = "" ∨ j.intent.getD "" ∉ allowedIntents)
              · have hr : processAudioCommand ⟨true, .ok t, .ok (some c), some j⟩ =
                    { intent := "unclear", response := j.response,
                      status := "success" } := by
                  simp [processAudioCommand, transcribeAudio, analyzeIntent, bind,
                    Except.bind, hi]
                rw [hr]
                show "unclear" ∈ allowedIntents
                decide
              · have hr : processAudioCommand ⟨true, .ok t, .ok (some c), some j⟩ =
                    { intent := j.intent.getD "", response := j.response,
                      status := "success" } := by
                  simp [processAudioCommand, transcribeAudio, analyzeIntent, bind,
                    Except.bind, hi]
                rw [hr]
                push_neg at hi
                exact hi.2
  · intro hfail
    rcases fe with _ | _
    · simp [processAudioCommand, transcribeAudio, bind, Except.bind]
    · rcases tr with e | t
      · simp [processAudioCommand, transcribeAudio, bind, Except.bind]
      · rcases cc with e | oc
        · simp [processAudioCommand, transcribeAudio, analyzeIntent, bind, Except.bind]
        · rcases oc with _ | c
          · simp [processAudioCommand, transcribeAudio, analyzeIntent, bind, Except.bind]
          · rcases pj with _ | j
            · simp [processAudioCommand, transcribeAudio, analyzeIntent, bind,
                Except.bind]
            · simp [isErr] at hfail
  · intro j hj hbad
    rcases fe with _ | _
    · simp [processAudioCommand, transcribeAudio, bind, Except.bind]
    · rcases tr with e | t
      · simp [processAudioCommand, transcribeAudio, bind, Except.bind]
      · rcases cc with e | oc
        · simp [processAudioCommand, transcribeAudio, analyzeIntent, bind, Except.bind]
        · rcases oc with _ | c
          · simp [processAudioCommand, transcribeAudio, analyzeIntent, bind, Except.bind]
          · cases hj
            simp [processAudioCommand, transcribeAudio, analyzeIntent, bind,
              Except.bind, hbad]

/-- Witness for C9 at a run whose audio file is missing. -/
theorem claim_C9_process_audio_total_witness :
    (processAudioCommand ⟨false, .ok "hi", .ok (some "x"), none⟩).status = "error" ∧
    (processAudioCommand ⟨false, .ok "hi", .ok (some "x"), none⟩).intent = "unclear" :=
  (claim_C9_process_audio_total ⟨false, .ok "hi", .ok (some "x"), none⟩).2.1
    (Or.inl rfl)

end VoiceApp

namespace RecorderApp

/-! ## Audio recorder state machine (audioRecorder.ts, claim C10)

The mutable fields of `NodeAudioRecorder` that the claim speaks about:
`isCurrentlyRecording`, `recordingProcess` and `audioFilePath`.  The spawned
process is an opaque handle (`Option Nat`).  The `error` event handler
registered on the recording process (which fires, e.g., when `sox` is not
installed) clears only the recording flag — it is modelled as a transition
that can occur between calls. -/

structure RecState where
  isCurrentlyRecording : Bool
  recordingProcess : Option Nat
  audioFilePath : String
  deriving Repr, DecidableEq

/-- The constructor-initialised state. -/
def initialRec : RecState := ⟨false, none, ""⟩

/-- `startRecording`: throws if already recording (state unchanged); the
file path is assigned before `spawn`, so a synchronously failing spawn
leaves the path set, the flag false, and the old process handle in place. -/
def startRecording (s : RecState) (p : String) (pid : Nat) (spawnOk : Bool) :
    RecState × Except String Unit :=
  if s.isCurrentlyRecording then (s, .error "Recording is already in progress")
  else if spawnOk then
    ({ isCurrentlyRecording := true, recordingProcess := some pid,
       audioFilePath := p }, .ok ())
  else
    ({ s with audioFilePath := p, isCurrentlyRecording := false },
      .error "Failed to start recording")

/-- The `error` event handler of the recording process (lines 44-50):
it clears the recording flag but leaves the process handle and path. -/
def procErrorEvent (s : RecState) : RecState :=
  { s with isCurrentlyRecording := false }

/-- `stopRecording`: the in-progress guard throws without touching state;
past the guard, both the success path and the catch path reset all three
fields, returning the captured path or throwing a wrapped error. -/
def stopRecording (s : RecState) (fileExists : Bool) :
    RecState × Except String String :=
  if s.isCurrentlyRecording = false ∨ s.recordingProcess = none then
    (s, .error "No recording in progress")
  else if fileExists then (⟨false, none, ""⟩, .ok s.audioFilePath)
  else (⟨false, none, ""⟩,
    .error "Failed to stop recording: Recording file was not created")

/-- States reachable from the fresh recorder through its operations and the
process-error event. -/
inductive Reach : RecState → Prop
  | init : Reach initialRec
  | start (s : RecState) (p : String) (pid : Nat) (ok : Bool) :
      Reach s → Reach (startRecording s p pid ok).1
  | procErr (s : RecState) : Reach s → Reach (procErrorEvent s)
  | stop (s : RecState) (fe : Bool) : Reach s → Reach (stopRecording s fe).1

/-- Reachability invariant: while the recording flag is set, a process
handle exists. -/
theorem reach_inv (s : RecState) (h : Reach s) :
    s.isCurrentlyRecording = true → s.recordingProcess ≠ none := by
  induction h with
  | init => intro hr; simp [initialRec] at hr
  | start s p pid ok hs ih =>
    unfold startRecording
    split_ifs with h1 h2
    · exact ih
    · intro _; simp
    · intro hr; simp at hr
  | procErr s hs ih =>
    intro hr
    simp [procErrorEvent] at hr
  | stop s fe hs ih =>
    unfold stopRecording
    split_ifs with h1 h2
    · exact ih
    · intro hr; simp at hr
    · intro hr; simp at hr

/-- The recorder state after a successful start followed by a process
error event — recording flag cleared, but handle and path still set. -/
def recAfterStart : RecState := (startRecording initialRec "rec.wav" 7 true).1

/-- See `recAfterStart`. -/
def recAfterProcErr : RecState := procErrorEvent recAfterStart

/-- C10 counterexample: in a reachable state (start, then the spawned
process errors), a completed `stopRecording` call — it throws
`No recording in progress` — leaves the process handle non-null and the
stored audio path uncleared, so a throwing `stopRecording` does not always
fully reset the recorder. -/
theorem claim_C10_counterexample :
    Reach recAfterProcErr ∧
    (stopRecording recAfterProcErr true).2 = .error "No recording in progress" ∧
    (stopRecording recAfterProcErr true).1.recordingProcess = some 7 ∧
    (stopRecording recAfterProcErr true).1.audioFilePath = "rec.wav" := by
  refine ⟨Reach.procErr _ (Reach.start _ _ _ _ Reach.init), ?_, ?_, ?_⟩ <;> decide

/-- C10 (amended): after any completed `stopRecording` call on a reachable
state, the recording flag is false — so a second `stopRecording` always
fails with `No recording in progress` and a subsequent `startRecording` is
never rejected as already in progress; and whenever the call passed the
in-progress guard (i.e. did not throw `No recording in progress`), the
state is fully reset: flag false, process handle null, path cleared. -/
theorem claim_C10_stop_reset :
    ∀ (s : RecState) (fe fe2 : Bool) (p : String) (pid : Nat) (ok : Bool),
    Reach s →
    (stopRecording s fe).1.isCurrentlyRecording = false ∧
    ((stopRecording s fe).2 ≠ .error "No recording in progress" →
      (stopRecording s fe).1 = ⟨false, none, ""⟩) ∧
    (stopRecording (stopRecording s fe).1 fe2).2 =
      .error "No recording in progress" ∧
    (startRecording (stopRecording s fe).1 p pid ok).2 ≠
      .error "Recording is already in progress" := by
  intro s fe fe2 p pid ok hs
  have hinv := reach_inv s hs
  by_cases hg : (s.isCurrentlyRecording = false ∨ s.recordingProcess = none)
  · have hrec : s.isCurrentlyRecording = false := by
      rcases hg with h | h
      · exact h
      · rcases hb : s.isCurrentlyRecording
        · rfl
        · exact absurd h (hinv hb)
    have hstop : stopRecording s fe = (s, .error "No recording in progress") := by
      simp [stopRecording, hg]
    rw [hstop]
    refine ⟨hrec, fun hne => absurd rfl hne, ?_, ?_⟩
    · simp [stopRecording, hrec]
    · simp [startRecording, hrec]
      split_ifs <;> simp
  · push_neg at hg
    have hstop : (stopRecording s fe).1 = (⟨false, none, ""⟩ : RecState) := by
      have h1 : ¬(s.isCurrentlyRecording = false ∨ s.recordingProcess = none) := by
        push_neg
        exact hg
      simp only [stopRecording]
      rw [if_neg h1]
      split_ifs <;> rfl
    rw [hstop]
    refine ⟨rfl, fun _ => rfl, ?_, ?_⟩
    · simp [stopRecording, initialRec]
    · simp [startRecording]
      split_ifs <;> simp

/-- Witness for the amended C10, stopping the freshly constructed
recorder. -/
theorem claim_C10_stop_reset_witness :
    (stopRecording initialRec true).1.isCurrentlyRecording = false ∧
    ((stopRecording initialRec true).2 ≠ .error "No recording in progress" →
      (stopRecording initialRec true).1 = ⟨false, none, ""⟩) ∧
    (stopRecording (stopRecording initialRec true).1 false).2 =
      .error "No recording in progress" ∧
    (startRecording (stopRecording initialRec true).1 "p.wav" 3 true).2 ≠
      .error "Recording is already in progress" :=
  claim_C10_stop_reset initialRec true false "p.wav" 3 true Reach.init

end RecorderApp
